import Mathlib

/-!
Verification development for the AECDM MCP hybrid server
(`src/mcp-aecdm-hybrid/server.ts`), a bridge between an MCP client and
Autodesk's AECDM GraphQL API.  The TypeScript source is shallowly embedded:
module-level mutable globals become explicit state records, `async` tool
handlers become pure functions from state and the outcomes of their external
effects (network responses, browser launches, random bytes, hashes) to a
result payload and a new state, and JavaScript truthiness on nullable strings
is modelled by the `jsTruthy` predicate on `Option String`.
-/

namespace AECDM

/-- JavaScript truthiness of a nullable string (`null` and `""` are falsy).
Used wherever the source writes `if (x)` / `if (!x)` on a `string | null`. -/
def jsTruthy : Option String → Bool
  | none => false
  | some s => s != ""

/-! ## PKCE helpers (server.ts lines 325-339) -/

/-- The alphabet string literal of `generateCodeVerifier`
(`"ABCDEFGHIJKLMNOPQRSTUVWXYZabcdefghijklmnopqrstuvwxyz0123456789"`). -/
def pkceChars : List Char :=
  "ABCDEFGHIJKLMNOPQRSTUVWXYZabcdefghijklmnopqrstuvwxyz0123456789".toList

/-- `generateCodeVerifier(length)`: builds the result character by character,
`chars[randomValues[i] % chars.length]`.  The cryptographically secure byte
source `crypto.randomBytes` is modelled as the oracle `randomValues`. -/
def generateCodeVerifier (randomValues : Nat → Nat) (length : Nat) : List Char :=
  (List.range length).map (fun i => pkceChars.getD (randomValues i % pkceChars.length) 'A')

/-- The standard base64 alphabet used by Node's `digest("base64")`. -/
def b64Table : List Char :=
  "ABCDEFGHIJKLMNOPQRSTUVWXYZabcdefghijklmnopqrstuvwxyz0123456789+/".toList

/-- Table lookup for one 6-bit group. -/
def b64 (k : Nat) : Char := b64Table.getD k 'A'

/-- Standard base64 encoding (with `=` padding) of a byte list; models the
external `digest("base64")` step of `generateCodeChallenge`. -/
def base64Encode : List Nat → List Char
  | [] => []
  | [b1] => [b64 (b1 / 4), b64 (b1 % 4 * 16), '=', '=']
  | [b1, b2] => [b64 (b1 / 4), b64 (b1 % 4 * 16 + b2 / 16), b64 (b2 % 16 * 4), '=']
  | b1 :: b2 :: b3 :: rest =>
      b64 (b1 / 4) :: b64 (b1 % 4 * 16 + b2 / 16) :: b64 (b2 % 16 * 4 + b3 / 64) ::
        b64 (b3 % 64) :: base64Encode rest

/-- The two global character replacements `+`→`-` and `/`→`_` of
`generateCodeChallenge` (they do not interfere, so one char map is exact). -/
def urlSafeChar (c : Char) : Char :=
  if c = '+' then '-' else if c = '/' then '_' else c

/-- The `replace(/=+$/, "")` step: drop the trailing run of `=`. -/
def stripTrailingEq (l : List Char) : List Char :=
  (l.reverse.dropWhile (fun c => c = '=')).reverse

/-- `generateCodeChallenge(verifier)`: SHA-256 (modelled as the oracle
`sha256`, an external library call), base64, URL-safe rewrite, strip padding. -/
def generateCodeChallenge (sha256 : String → List Nat) (verifier : String) : List Char :=
  stripTrailingEq ((base64Encode (sha256 verifier)).map urlSafeChar)

/-! ## GraphQL proxy (server.ts lines 37-58, 448-491) -/

/-- One entry of the `errors` array of a GraphQL response; `correlationId`
and `code` model the fields of `extensions` that the handlers read. -/
structure GraphQLError where
  message : String
  correlationId : Option String := none
  code : Option String := none
deriving DecidableEq

/-- The parsed JSON body of a GraphQL HTTP response (`data` is an object or
null in GraphQL, so `Option α` captures JavaScript truthiness of the field:
`some` is truthy, absent/null is falsy). -/
structure GraphQLResponse (α : Type) where
  data : Option α
  errors : Option (List GraphQLError)
deriving DecidableEq

/-- `GraphQLResult`: what `graphqlQuery` returns on a success HTTP status. -/
structure GraphQLResult (α : Type) where
  data : Option α
  errors : Option (List GraphQLError)
  hasErrors : Bool
deriving DecidableEq

/-- The upstream HTTP response as seen by `graphqlQuery` (`ok`/`status` of the
`fetch` result and its parsed JSON body). -/
structure HttpResponse (α : Type) where
  ok : Bool
  status : Nat
  body : GraphQLResponse α
deriving DecidableEq

/-- The source's `!!(result.errors && result.errors.length > 0)`. -/
def hasErrorsOf (errors : Option (List GraphQLError)) : Bool :=
  match errors with
  | some es => decide (0 < es.length)
  | none => false

/-- `graphqlQuery(query, variables, region)` as a function of the stored
access token and the upstream HTTP response.  The second component records
whether a network request (`fetch`) was issued: the `Not authenticated` throw
happens before any network call.  A non-success HTTP status throws
`API returned ...`; a success status never throws, even when the body
carries a GraphQL `errors` array. -/
def graphqlQuery {α : Type} (accessToken : Option String) (resp : HttpResponse α) :
    Except String (GraphQLResult α) × Bool :=
  if jsTruthy accessToken then
    if resp.ok then
      (.ok ⟨resp.body.data, resp.body.errors, hasErrorsOf resp.body.errors⟩, true)
    else
      (.error ("API returned " ++ toString resp.status), true)
  else
    (.error "Not authenticated", false)

/-- The reduced error entries (`{message, correlationId}`) that the tool
handlers build from `result.errors`. -/
structure WarnEntry where
  message : String
  correlationId : Option String
deriving DecidableEq

/-- The per-entry reshaping `e => ({message: e.message, correlationId:
e.extensions?.correlationId})`. -/
def miniError (e : GraphQLError) : WarnEntry :=
  ⟨e.message, e.correlationId⟩

/-- The JSON payload returned by the `execute-query` handler on a non-thrown
proxy result: `data` is set only when `result.data` is truthy, `errors` only
when `result.hasErrors`. -/
structure ExecResponse (α : Type) where
  data : Option α
  errors : Option (List WarnEntry)
deriving DecidableEq

/-- The response-building section of the `execute-query` handler
(server.ts lines 1152-1163). -/
def executeQueryResponse {α : Type} (r : GraphQLResult α) : ExecResponse α :=
  { data := r.data
    errors := if r.hasErrors then r.errors.map (List.map miniError) else none }

/-- The `execute-query` tool handler: runs the proxy and reshapes; a thrown
proxy error is caught and reported as `{errors: [{message}]}`.  The `Bool`
records whether a network request was made. -/
def executeQuery {α : Type} (accessToken : Option String) (resp : HttpResponse α) :
    ExecResponse α × Bool :=
  match graphqlQuery accessToken resp with
  | (.error m, b) => (⟨none, some [⟨m, none⟩]⟩, b)
  | (.ok r, b) => (executeQueryResponse r, b)

/-- The JSON payload returned by the `get-hubs` handler. -/
inductive HubsOut (α : Type) where
  | plain (d : Option α)
  | withWarnings (d : α) (warnings : Option (List WarnEntry))
  | errPayload (msg : String) (correlationId : Option String)
deriving DecidableEq

/-- `result.errors?.[0]?.message || "Unknown error"`. -/
def firstErrMessage (errors : Option (List GraphQLError)) : String :=
  match errors with
  | some (e :: _) => if e.message = "" then "Unknown error" else e.message
  | _ => "Unknown error"

/-- `result.errors?.[0]?.extensions?.correlationId`. -/
def firstErrCorrId (errors : Option (List GraphQLError)) : Option String :=
  match errors with
  | some (e :: _) => e.correlationId
  | _ => none

/-- The `get-hubs` tool handler (server.ts lines 847-903).  The match on
`r.data` realises the source's two guards `hasErrors && data` (partial data
with `_warnings`) and `hasErrors && !data` (error payload with correlation
id); the catch branch turns a thrown proxy error into `{error: message}`. -/
def getHubs {α : Type} (accessToken : Option String) (resp : HttpResponse α) :
    HubsOut α × Bool :=
  match graphqlQuery accessToken resp with
  | (.error m, b) => (.errPayload m none, b)
  | (.ok r, b) =>
      match r.data with
      | some d =>
          if r.hasErrors then (.withWarnings d (r.errors.map (List.map miniError)), b)
          else (.plain (some d), b)
      | none =>
          if r.hasErrors then (.errPayload (firstErrMessage r.errors) (firstErrCorrId r.errors), b)
          else (.plain none, b)

/-! ## Viewer bridge (server.ts lines 252-319) -/

/-- `WebSocket.OPEN` from the `ws` library. -/
def WS_OPEN : Nat := 1

/-- A WebSocket client connection: an identity (so reference comparison
`wsConnection === ws` and the delivery log can distinguish sockets) and its
`readyState`. -/
structure WSock where
  id : Nat
  readyState : Nat
deriving DecidableEq

/-- The JSON messages the server sends over the viewer socket
(`{type: "load-model", urn, accessToken}` and
`{type: "highlight", externalIds}`). -/
inductive ViewerMsg where
  | loadModel (urn : List Char) (accessToken : String)
  | highlight (externalIds : List String)
deriving DecidableEq

/-- The viewer bridge's mutable globals (`wsConnection`,
`viewerServerRunning`, `pendingMessage`) together with the listener bind /
confirmation status of the two servers and a log of `(socket id, message)`
deliveries performed by `ws.send`. -/
structure ViewerState where
  wsConnection : Option WSock
  viewerServerRunning : Bool
  pendingMessage : Option ViewerMsg
  httpBound : Bool
  wsBound : Bool
  httpConfirmed : Bool
  wsConfirmed : Bool
  delivered : List (Nat × ViewerMsg)
deriving DecidableEq

/-- The module-level initial values (`null` / `false` / empty log). -/
def initialViewerState : ViewerState :=
  ⟨none, false, none, false, false, false, false, []⟩

/-- `sendToViewer(message)`: transmit when the active socket is open,
otherwise overwrite `pendingMessage` (last-write-wins). -/
def sendToViewer (message : ViewerMsg) (st : ViewerState) : ViewerState :=
  match st.wsConnection with
  | some ws =>
      if ws.readyState = WS_OPEN then
        { st with delivered := st.delivered ++ [(ws.id, message)] }
      else
        { st with pendingMessage := some message }
  | none => { st with pendingMessage := some message }

/-- The WebSocket server's `"connection"` handler: record the socket as the
sole active connection; if a `pendingMessage` exists, send it and clear it. -/
def onConnect (ws : WSock) (st : ViewerState) : ViewerState :=
  let st1 := { st with wsConnection := some ws }
  match st1.pendingMessage with
  | some m =>
      { st1 with delivered := st1.delivered ++ [(ws.id, m)], pendingMessage := none }
  | none => st1

/-- The socket's `"close"` handler: clear `wsConnection` only when the
closing socket is still the active one. -/
def onClose (ws : WSock) (st : ViewerState) : ViewerState :=
  if st.wsConnection = some ws then { st with wsConnection := none } else st

/-- `startViewerServers()` up to its first suspension: when already running
it resolves immediately (the `Bool` is `true`) touching nothing; otherwise it
initiates binding of the HTTP listener and the WebSocket listener and returns
with the promise still pending (`false`) — `viewerServerRunning` is not yet
set. -/
def startViewer (st : ViewerState) : ViewerState × Bool :=
  if st.viewerServerRunning then (st, true)
  else ({ st with httpBound := true, wsBound := true }, false)

/-- The asynchronous events the bridge reacts to: the HTTP listener's listen
callback (which only logs), the WebSocket server's `"listening"` event (which
sets `viewerServerRunning` and resolves the start promise), its `"error"`
event (which rejects the promise, touching no state), and socket
connection/close. -/
inductive BridgeEvent where
  | httpListening
  | wsListening
  | wsError
  | connect (ws : WSock)
  | close (ws : WSock)

/-- One event step of the viewer bridge. -/
def stepEvent (st : ViewerState) (e : BridgeEvent) : ViewerState :=
  match e with
  | .httpListening => { st with httpConfirmed := true }
  | .wsListening => { st with wsConfirmed := true, viewerServerRunning := true }
  | .wsError => st
  | .connect ws => onConnect ws st
  | .close ws => onClose ws st

/-! ## Session, model context and tool handlers -/

/-- The token endpoint's response body. -/
structure TokenResponse where
  access_token : String
  refresh_token : String
deriving DecidableEq

/-- The three `current*` globals holding the model context. -/
structure ModelContext where
  currentElementGroupId : Option String
  currentElementGroupName : Option String
  currentFileVersionUrn : Option String
deriving DecidableEq

/-- The process-wide mutable state: tokens, PKCE verifier, model context and
viewer bridge. -/
structure ServerState where
  accessToken : Option String
  refreshToken : Option String
  codeVerifier : Option String
  ctx : ModelContext
  viewer : ViewerState
deriving DecidableEq

/-- All globals at module load: every nullable is `null`. -/
def initialServerState : ServerState :=
  ⟨none, none, none, ⟨none, none, none⟩, initialViewerState⟩

/-- The JavaScript `x || null` idiom on an optional string argument: an
absent or empty string becomes `null`. -/
def jsOrNull (o : Option String) : Option String :=
  match o with
  | some s => if s = "" then none else some s
  | none => none

/-- The arguments of the `render-model` tool. -/
structure RenderArgs where
  fileVersionUrn : String
  elementGroupId : String
  elementGroupName : Option String
deriving DecidableEq

/-- The URL-safe unpadded base64 encoding of the URN
(`Buffer.from(urn).toString("base64")` then the same three rewrites as the
PKCE challenge); bytes are modelled as character codes. -/
def urnBase64 (urn : String) : List Char :=
  stripTrailingEq ((base64Encode (urn.toList.map Char.toNat)).map urlSafeChar)

/-- The JSON payload returned by the `render-model` tool: either an
`{error}` object (missing token or a caught exception) or the
`model-sent` object. -/
inductive RenderOut where
  | errPayload (msg : String)
  | modelSent (elementGroupId : String) (modelName : String)
deriving DecidableEq

/-- The `render-model` tool handler (server.ts lines 670-749).  The outcomes
of the two awaited effects are oracles: `startResult` for
`startViewerServers()` (on success the WebSocket listener has fired
`"listening"`, so the bridge is running) and `openResult` for the browser
launch.  The model context is overwritten before either effect is
attempted. -/
def renderModel (st : ServerState) (args : RenderArgs)
    (startResult : Except String Unit) (openResult : Except String Unit) :
    RenderOut × ServerState :=
  match st.accessToken with
  | none => (.errPayload "Not authenticated", st)
  | some tok =>
      if tok = "" then (.errPayload "Not authenticated", st)
      else
        let ctx1 : ModelContext :=
          ⟨some args.elementGroupId, jsOrNull args.elementGroupName, some args.fileVersionUrn⟩
        let st1 := { st with ctx := ctx1 }
        let isFirstLoad := !st1.viewer.viewerServerRunning
        match startResult with
        | .error e => (.errPayload e, st1)
        | .ok _ =>
            let v1 :=
              if st1.viewer.viewerServerRunning then st1.viewer
              else
                { st1.viewer with
                  httpBound := true
                  wsBound := true
                  wsConfirmed := true
                  viewerServerRunning := true }
            let message := ViewerMsg.loadModel (urnBase64 args.fileVersionUrn) tok
            let modelName :=
              match jsOrNull args.elementGroupName with
              | some s => s
              | none => "Model"
            if isFirstLoad then
              let v2 := { v1 with pendingMessage := some message }
              match openResult with
              | .error e => (.errPayload e, { st1 with viewer := v2 })
              | .ok _ => (.modelSent args.elementGroupId modelName, { st1 with viewer := v2 })
            else
              (.modelSent args.elementGroupId modelName,
               { st1 with viewer := sendToViewer message v1 })

/-- The JSON payload returned by the `get-model-context` tool. -/
inductive ContextOut where
  | noModel (msg : String)
  | ctxPayload (elementGroupId : String) (elementGroupName : Option String)
      (fileVersionUrn : Option String)
deriving DecidableEq

/-- The `get-model-context` tool handler (server.ts lines 800-832); the
guard is `if (!currentElementGroupId)`, i.e. JavaScript truthiness. -/
def getModelContext (ctx : ModelContext) : ContextOut :=
  if jsTruthy ctx.currentElementGroupId then
    .ctxPayload (ctx.currentElementGroupId.getD "") ctx.currentElementGroupName
      ctx.currentFileVersionUrn
  else
    .noModel "No model is currently loaded. Use browse-aecdm to select and load a model first."

/-- The JSON payload returned by the `highlight-elements` tool. -/
inductive HighlightOut where
  | errPayload (msg : String)
  | highlighted (count : Nat)
deriving DecidableEq

/-- The `highlight-elements` tool handler (server.ts lines 755-794): guard
`if (!viewerServerRunning || !wsConnection)` returns the explicit error
payload; otherwise the highlight message goes through `sendToViewer`. -/
def highlightElements (st : ViewerState) (externalIds : List String) :
    HighlightOut × ViewerState :=
  if !st.viewerServerRunning || st.wsConnection.isNone then
    (.errPayload "Viewer is not connected. Please render a model first.", st)
  else
    (.highlighted externalIds.length, sendToViewer (.highlight externalIds) st)

/-- The JSON payload returned by the `authenticate` tool. -/
structure AuthOut where
  authenticated : Bool
  error : Option String
deriving DecidableEq

/-- The `authenticate` tool handler (server.ts lines 573-618).  External
effects are oracles: the random bytes and hash for PKCE, the browser launch,
the OAuth callback wait (yielding the authorization code) and the token
exchange.  The final `Bool` records whether the PKCE/browser/exchange chain
was entered at all. -/
def authenticate (st : ServerState) (randomValues : Nat → Nat)
    (sha256 : String → List Nat) (openResult : Except String Unit)
    (callbackResult : Except String String)
    (exchangeResult : String → Except String TokenResponse) :
    AuthOut × ServerState × Bool :=
  if jsTruthy st.accessToken then (⟨true, none⟩, st, false)
  else
    let verifier := String.mk (generateCodeVerifier randomValues 64)
    let _challenge := generateCodeChallenge sha256 verifier
    let st1 := { st with codeVerifier := some verifier }
    match openResult with
    | .error m => (⟨false, some m⟩, st1, true)
    | .ok _ =>
        match callbackResult with
        | .error m => (⟨false, some m⟩, st1, true)
        | .ok code =>
            match exchangeResult code with
            | .error m => (⟨false, some m⟩, st1, true)
            | .ok toks =>
                (⟨true, none⟩,
                 { st1 with
                   accessToken := some toks.access_token
                   refreshToken := some toks.refresh_token }, true)

/-- The invariant claimed for `ModelContext`: the three fields are
all-present or all-absent. -/
def ctxAllOrNone (c : ModelContext) : Prop :=
  (c.currentElementGroupId.isSome ∧ c.currentElementGroupName.isSome ∧
      c.currentFileVersionUrn.isSome) ∨
  (c.currentElementGroupId = none ∧ c.currentElementGroupName = none ∧
      c.currentFileVersionUrn = none)

instance (c : ModelContext) : Decidable (ctxAllOrNone c) := by
  unfold ctxAllOrNone
  infer_instance

end AECDM

namespace AECDM

theorem urlSafeChar_ne_plus (c : Char) : urlSafeChar c ≠ '+' := by
  unfold urlSafeChar
  split
  · decide
  · split
    · decide
    · assumption

theorem urlSafeChar_ne_slash (c : Char) : urlSafeChar c ≠ '/' := by
  unfold urlSafeChar
  split
  · decide
  · split
    · decide
    · assumption

theorem head_dropWhile_not {α : Type} (p : α → Bool) (l : List α) :
    ∀ a ∈ (l.dropWhile p).head?, p a = false := by
  induction l with
  | nil => intro a h; simp [List.dropWhile] at h
  | cons x xs ih =>
      intro a h
      rw [List.dropWhile] at h
      cases hx : p x with
      | true => rw [hx] at h; exact ih a h
      | false =>
          rw [hx] at h
          simp at h
          subst h
          exact hx

theorem mem_of_mem_dropWhile {α : Type} (p : α → Bool) (l : List α) :
    ∀ a ∈ l.dropWhile p, a ∈ l := by
  induction l with
  | nil => intro a h; simp [List.dropWhile] at h
  | cons x xs ih =>
      intro a h
      rw [List.dropWhile] at h
      cases hx : p x with
      | true => rw [hx] at h; exact List.mem_cons_of_mem x (ih a h)
      | false => rw [hx] at h; exact h

theorem getLast_stripTrailingEq_ne (l : List Char) :
    ∀ c ∈ (stripTrailingEq l).getLast?, c ≠ '=' := by
  intro c hc
  unfold stripTrailingEq at hc
  rw [List.getLast?_reverse] at hc
  have := head_dropWhile_not (fun c => c = '=') l.reverse c hc
  simpa using this

set_option maxRecDepth 4000 in
/-- C5 (counterexample): the claim says the verifier alphabet has 64
characters; the alphabet string in the source has 62 (A-Z, a-z, 0-9), and
selecting by `byte % 62` over uniformly random bytes is not uniform (index 0
has 5 preimage bytes, index 61 has 4). -/
theorem pkce_alphabet_not_64 :
    pkceChars.length ≠ 64 ∧ pkceChars.length = 62 ∧
      ((List.range 256).countP (fun b => b % pkceChars.length = 0) = 5 ∧
       (List.range 256).countP (fun b => b % pkceChars.length = 61) = 4) := by
  refine ⟨by decide, by decide, by decide, by decide⟩

theorem pkceChars_getD_mem (k : Nat) : pkceChars.getD (k % pkceChars.length) 'A' ∈ pkceChars := by
  have hlen : pkceChars.length = 62 := by decide
  have hk : k % pkceChars.length < 62 := by
    rw [hlen]; exact Nat.mod_lt _ (by decide)
  have : ∀ j : Fin 62, pkceChars.getD j.val 'A' ∈ pkceChars := by decide
  exact this ⟨k % pkceChars.length, hk⟩

/-- C5 (amended): for every byte oracle and every length `n ≥ 1`,
`generateVerifier(n)` has length exactly `n` and every character lies in the
62-character alphabet A-Za-z0-9. -/
theorem generateCodeVerifier_length_and_alphabet
    (randomValues : Nat → Nat) (n : Nat) (_h : 1 ≤ n) :
    (generateCodeVerifier randomValues n).length = n ∧
      ∀ c ∈ generateCodeVerifier randomValues n, c ∈ pkceChars := by
  constructor
  · simp [generateCodeVerifier]
  · intro c hc
    simp only [generateCodeVerifier, List.mem_map] at hc
    obtain ⟨i, _, rfl⟩ := hc
    exact pkceChars_getD_mem (randomValues i)

/-- C5 witness: the theorem instantiated at a concrete oracle and length 3. -/
theorem generateCodeVerifier_length_and_alphabet_witness :
    (generateCodeVerifier (fun i => i * 63) 3).length = 3 ∧
      ∀ c ∈ generateCodeVerifier (fun i => i * 63) 3, c ∈ pkceChars :=
  generateCodeVerifier_length_and_alphabet (fun i => i * 63) 3 (by decide)

/-- C6: `deriveChallenge` is the pure pipeline SHA-256 → base64 → `+`→`-`,
`/`→`_` → strip trailing `=`; it is deterministic (equal verifiers yield equal
challenges for a fixed hash function), and its output contains no `+`, no `/`,
and does not end in `=`. -/
theorem generateCodeChallenge_deterministic_urlsafe
    (sha256 : String → List Nat) (v1 v2 : String) (hv : v1 = v2) :
    generateCodeChallenge sha256 v1 = generateCodeChallenge sha256 v2 ∧
      '+' ∉ generateCodeChallenge sha256 v1 ∧
      '/' ∉ generateCodeChallenge sha256 v1 ∧
      ∀ c ∈ (generateCodeChallenge sha256 v1).getLast?, c ≠ '=' := by
  subst hv
  refine ⟨rfl, ?_, ?_, getLast_stripTrailingEq_ne _⟩
  · intro hmem
    unfold generateCodeChallenge stripTrailingEq at hmem
    rw [List.mem_reverse] at hmem
    have := mem_of_mem_dropWhile _ _ _ hmem
    rw [List.mem_reverse, List.mem_map] at this
    obtain ⟨c, _, hc⟩ := this
    exact urlSafeChar_ne_plus c hc
  · intro hmem
    unfold generateCodeChallenge stripTrailingEq at hmem
    rw [List.mem_reverse] at hmem
    have := mem_of_mem_dropWhile _ _ _ hmem
    rw [List.mem_reverse, List.mem_map] at this
    obtain ⟨c, _, hc⟩ := this
    exact urlSafeChar_ne_slash c hc

/-- C6 witness: the theorem instantiated at a concrete hash oracle and
verifier. -/
theorem generateCodeChallenge_deterministic_urlsafe_witness :
    generateCodeChallenge (fun _ => [251, 255, 254]) "abc" =
        generateCodeChallenge (fun _ => [251, 255, 254]) "abc" ∧
      '+' ∉ generateCodeChallenge (fun _ => [251, 255, 254]) "abc" ∧
      '/' ∉ generateCodeChallenge (fun _ => [251, 255, 254]) "abc" ∧
      ∀ c ∈ (generateCodeChallenge (fun _ => [251, 255, 254]) "abc").getLast?, c ≠ '=' :=
  generateCodeChallenge_deterministic_urlsafe (fun _ => [251, 255, 254]) "abc" "abc" rfl

/-- C2: on a success HTTP status whose body carries a non-empty `errors`
array, the proxy does not throw: it returns `hasErrors = true` with whatever
`data` was present; and `execute-query` then returns the data field unchanged
(present when present, absent when absent) together with the reduced error
list. -/
theorem graphql_partial_response {α : Type} (t : String) (resp : HttpResponse α)
    (es : List GraphQLError) (ht : t ≠ "") (hok : resp.ok = true)
    (herr : resp.body.errors = some es) (hne : es ≠ []) :
    (graphqlQuery (some t) resp).1 = .ok ⟨resp.body.data, some es, true⟩ ∧
      (executeQuery (some t) resp).1 = ⟨resp.body.data, some (es.map miniError)⟩ := by
  have htr : jsTruthy (some t) = true := by
    simp [jsTruthy, ht]
  have hhe : hasErrorsOf (some es) = true := by
    simp [hasErrorsOf, List.length_pos, hne]
  constructor
  · simp [graphqlQuery, htr, hok, herr, hhe]
  · simp [executeQuery, graphqlQuery, htr, hok, executeQueryResponse, hhe, herr]

/-- C2 witness: the theorem at a concrete token and partial response. -/
theorem graphql_partial_response_witness :
    (graphqlQuery (some "tok")
        (⟨true, 200, ⟨some "D", some [⟨"boom", some "cid", none⟩]⟩⟩ : HttpResponse String)).1 =
      .ok ⟨some "D", some [⟨"boom", some "cid", none⟩], true⟩ ∧
    (executeQuery (some "tok")
        (⟨true, 200, ⟨some "D", some [⟨"boom", some "cid", none⟩]⟩⟩ : HttpResponse String)).1 =
      ⟨some "D", some [⟨"boom", some "cid"⟩]⟩ :=
  graphql_partial_response "tok"
    (⟨true, 200, ⟨some "D", some [⟨"boom", some "cid", none⟩]⟩⟩ : HttpResponse String)
    [⟨"boom", some "cid", none⟩] (by decide) rfl rfl (by decide)

/-- C3: with no stored access token the proxy fails with `Not authenticated`
before issuing any network request (the `Bool` component is `false`), and the
`get-hubs` handler surfaces this as the payload `{error: "Not authenticated"}`
without an HTTP call having been made. -/
theorem graphql_not_authenticated {α : Type} (resp : HttpResponse α) :
    graphqlQuery none resp = (.error "Not authenticated", false) ∧
      getHubs none resp = (.errPayload "Not authenticated" none, false) := by
  constructor
  · simp [graphqlQuery, jsTruthy]
  · simp [getHubs, graphqlQuery, jsTruthy]

/-- C1: with no attached socket, `send` stores the message as the single
`pendingMessage` and delivers nothing; a second `send` overwrites it
(last-write-wins); the next socket connection delivers exactly the stored
message once (the delivery log grows by exactly that one entry) and clears
`pendingMessage`. -/
theorem viewer_pending_last_write_wins (st : ViewerState) (m1 m2 : ViewerMsg)
    (ws : WSock) (hconn : st.wsConnection = none) :
    (sendToViewer m1 st).pendingMessage = some m1 ∧
      (sendToViewer m1 st).delivered = st.delivered ∧
      (sendToViewer m2 (sendToViewer m1 st)).pendingMessage = some m2 ∧
      (sendToViewer m2 (sendToViewer m1 st)).delivered = st.delivered ∧
      (onConnect ws (sendToViewer m2 (sendToViewer m1 st))).delivered =
        st.delivered ++ [(ws.id, m2)] ∧
      (onConnect ws (sendToViewer m2 (sendToViewer m1 st))).pendingMessage = none := by
  simp [sendToViewer, onConnect, hconn]

/-- C1 witness: the theorem at the initial bridge state with two concrete
highlight messages and a concrete socket. -/
theorem viewer_pending_last_write_wins_witness :
    (sendToViewer (.highlight ["a"]) initialViewerState).pendingMessage =
        some (.highlight ["a"]) ∧
      (sendToViewer (.highlight ["a"]) initialViewerState).delivered =
        initialViewerState.delivered ∧
      (sendToViewer (.highlight ["b"])
          (sendToViewer (.highlight ["a"]) initialViewerState)).pendingMessage =
        some (.highlight ["b"]) ∧
      (sendToViewer (.highlight ["b"])
          (sendToViewer (.highlight ["a"]) initialViewerState)).delivered =
        initialViewerState.delivered ∧
      (onConnect ⟨1, WS_OPEN⟩
          (sendToViewer (.highlight ["b"])
            (sendToViewer (.highlight ["a"]) initialViewerState))).delivered =
        initialViewerState.delivered ++ [((1 : Nat), ViewerMsg.highlight ["b"])] ∧
      (onConnect ⟨1, WS_OPEN⟩
          (sendToViewer (.highlight ["b"])
            (sendToViewer (.highlight ["a"]) initialViewerState))).pendingMessage = none :=
  viewer_pending_last_write_wins initialViewerState (.highlight ["a"]) (.highlight ["b"])
    ⟨1, WS_OPEN⟩ rfl

/-- C7 (counterexample): starting from the stopped state, the WebSocket
server's `"listening"` event alone makes `isRunning` true while the HTTP
listener's confirmation has not arrived — the code does not wait for both
listeners before transitioning to Running. -/
theorem start_running_before_http_confirmed :
    (stepEvent (startViewer initialViewerState).1 .wsListening).viewerServerRunning = true ∧
      (stepEvent (startViewer initialViewerState).1 .wsListening).httpConfirmed = false :=
  ⟨rfl, rfl⟩

/-- C7 (amended): `start()` is idempotent (already Running returns
immediately with nothing rebound); when stopped it initiates binding of both
listeners without yet being Running; `isRunning` is monotone under every
bridge event (so it transitions false→true at most once per process), and the
transition to Running happens on the WebSocket listener's `"listening"`
confirmation. -/
theorem startViewer_idempotent_running_monotone (st : ViewerState) (e : BridgeEvent) :
    (st.viewerServerRunning = true → startViewer st = (st, true)) ∧
      (st.viewerServerRunning = false →
        startViewer st = ({ st with httpBound := true, wsBound := true }, false)) ∧
      (st.viewerServerRunning = true → (stepEvent st e).viewerServerRunning = true) ∧
      (stepEvent st .wsListening).viewerServerRunning = true := by
  refine ⟨?_, ?_, ?_, rfl⟩
  · intro h; simp [startViewer, h]
  · intro h; simp [startViewer, h]
  · intro h
    cases e with
    | connect ws => cases hp : st.pendingMessage <;> simp [stepEvent, onConnect, hp, h]
    | close ws =>
        by_cases hc : st.wsConnection = some ws <;> simp [stepEvent, onClose, hc, h]
    | httpListening => simp [stepEvent, h]
    | wsListening => simp [stepEvent]
    | wsError => simp [stepEvent, h]

/-- C7 witness: the theorem at a concrete Running state (idempotence and
monotonicity) and at the initial stopped state (binding without running). -/
theorem startViewer_idempotent_running_monotone_witness :
    startViewer ⟨none, true, none, true, true, true, true, []⟩ =
        (⟨none, true, none, true, true, true, true, []⟩, true) ∧
      (stepEvent ⟨none, true, none, true, true, true, true, []⟩
          .httpListening).viewerServerRunning = true ∧
      startViewer initialViewerState =
        ({ initialViewerState with httpBound := true, wsBound := true }, false) :=
  ⟨(startViewer_idempotent_running_monotone
      ⟨none, true, none, true, true, true, true, []⟩ .httpListening).1 rfl,
   (startViewer_idempotent_running_monotone
      ⟨none, true, none, true, true, true, true, []⟩ .httpListening).2.2.1 rfl,
   (startViewer_idempotent_running_monotone initialViewerState .wsError).2.1 rfl⟩

/-- C8: whenever the viewer bridge is not running or no socket is attached,
`highlight-elements` returns the explicit viewer-not-connected error payload
and leaves the state (in particular `pendingMessage`) untouched — it never
queues the highlight message; as a total function it never throws. -/
theorem highlight_not_connected (st : ViewerState) (ids : List String)
    (h : st.viewerServerRunning = false ∨ st.wsConnection = none) :
    highlightElements st ids =
      (.errPayload "Viewer is not connected. Please render a model first.", st) := by
  unfold highlightElements
  rcases h with h | h
  · simp [h]
  · simp [h]

/-- C8 witness: the theorem at the initial state (before any `render-model`
call) with a concrete id list. -/
theorem highlight_not_connected_witness :
    highlightElements initialViewerState ["w1"] =
      (.errPayload "Viewer is not connected. Please render a model first.",
        initialViewerState) :=
  highlight_not_connected initialViewerState ["w1"] (Or.inl rfl)

theorem renderModel_ctx_eq (st : ServerState) (args : RenderArgs) (tok : String)
    (sR oR : Except String Unit) (htok : st.accessToken = some tok) (hne : tok ≠ "") :
    (renderModel st args sR oR).2.ctx =
      ⟨some args.elementGroupId, jsOrNull args.elementGroupName, some args.fileVersionUrn⟩ ∧
      (renderModel st args sR oR).2.accessToken = st.accessToken := by
  cases sR with
  | error e => simp [renderModel, htok, hne]
  | ok u =>
      cases oR with
      | error e =>
          by_cases hr : st.viewer.viewerServerRunning = true <;>
            simp [renderModel, htok, hne, hr]
      | ok u2 =>
          by_cases hr : st.viewer.viewerServerRunning = true <;>
            simp [renderModel, htok, hne, hr]

/-- C4 (counterexample): a successful `render-model` call that omits the
optional `elementGroupName` leaves the context with `elementGroupId` and
`fileVersionUrn` present but `elementGroupName` absent — a mix, so the
"all-present or all-absent" invariant claimed for the three fields fails. -/
theorem render_ctx_not_all_or_none :
    (renderModel ⟨some "tok", none, none, ⟨none, none, none⟩, initialViewerState⟩
        ⟨"urn1", "eg1", none⟩ (.ok ()) (.ok ())).1 = .modelSent "eg1" "Model" ∧
      ¬ ctxAllOrNone
        (renderModel ⟨some "tok", none, none, ⟨none, none, none⟩, initialViewerState⟩
          ⟨"urn1", "eg1", none⟩ (.ok ()) (.ok ())).2.ctx := by
  constructor
  · decide
  · decide

/-- C4 (amended): after any successful `render-model` with a token present,
the three context fields are overwritten together, wholesale, as a function of
that call's arguments alone: `elementGroupId` and `fileVersionUrn` are always
present and `elementGroupName` is present exactly when a non-empty name was
supplied; a second `render-model` leaves the context, and hence
`get-model-context`, reflecting only the most recent call's values with no
stale mixing of fields. -/
theorem render_ctx_wholesale (st : ServerState) (a1 a2 : RenderArgs) (tok : String)
    (sR1 oR1 sR2 oR2 : Except String Unit)
    (htok : st.accessToken = some tok) (hne : tok ≠ "") :
    (renderModel st a1 sR1 oR1).2.ctx =
        ⟨some a1.elementGroupId, jsOrNull a1.elementGroupName, some a1.fileVersionUrn⟩ ∧
      (renderModel (renderModel st a1 sR1 oR1).2 a2 sR2 oR2).2.ctx =
        ⟨some a2.elementGroupId, jsOrNull a2.elementGroupName, some a2.fileVersionUrn⟩ ∧
      (a2.elementGroupId ≠ "" →
        getModelContext (renderModel (renderModel st a1 sR1 oR1).2 a2 sR2 oR2).2.ctx =
          .ctxPayload a2.elementGroupId (jsOrNull a2.elementGroupName)
            (some a2.fileVersionUrn)) := by
  obtain ⟨h1, htok1⟩ := renderModel_ctx_eq st a1 tok sR1 oR1 htok hne
  rw [htok] at htok1
  obtain ⟨h2, _⟩ := renderModel_ctx_eq (renderModel st a1 sR1 oR1).2 a2 tok sR2 oR2 htok1 hne
  refine ⟨h1, h2, ?_⟩
  intro hid
  rw [h2]
  simp [getModelContext, jsTruthy, hid]

/-- C4 witness: the amended theorem at two concrete renders with different
URNs. -/
theorem render_ctx_wholesale_witness :
    (renderModel ⟨some "tok", none, none, ⟨none, none, none⟩, initialViewerState⟩
        ⟨"urn1", "eg1", some "Tower"⟩ (.ok ()) (.ok ())).2.ctx =
        ⟨some "eg1", jsOrNull (some "Tower"), some "urn1"⟩ ∧
      (renderModel
          (renderModel ⟨some "tok", none, none, ⟨none, none, none⟩, initialViewerState⟩
            ⟨"urn1", "eg1", some "Tower"⟩ (.ok ()) (.ok ())).2
          ⟨"urn2", "eg2", some "Bridge"⟩ (.ok ()) (.ok ())).2.ctx =
        ⟨some "eg2", jsOrNull (some "Bridge"), some "urn2"⟩ ∧
      ("eg2" ≠ "" →
        getModelContext
            (renderModel
              (renderModel ⟨some "tok", none, none, ⟨none, none, none⟩, initialViewerState⟩
                ⟨"urn1", "eg1", some "Tower"⟩ (.ok ()) (.ok ())).2
              ⟨"urn2", "eg2", some "Bridge"⟩ (.ok ()) (.ok ())).2.ctx =
          .ctxPayload "eg2" (jsOrNull (some "Bridge")) (some "urn2")) :=
  render_ctx_wholesale ⟨some "tok", none, none, ⟨none, none, none⟩, initialViewerState⟩
    ⟨"urn1", "eg1", some "Tower"⟩ ⟨"urn2", "eg2", some "Bridge"⟩ "tok"
    (.ok ()) (.ok ()) (.ok ()) (.ok ()) rfl (by decide)

/-- C9: `authenticate` short-circuits with `{authenticated: true}` whenever a
token is already present, running none of the PKCE/browser/exchange steps and
touching no state; and a failure at any step of the chain — browser launch,
callback wait, or token exchange — is caught and reported as
`{authenticated: false, error}` rather than propagated as a thrown fault (the
handler is a total function into payloads). -/
theorem authenticate_short_circuit_and_catch (st : ServerState) (rv : Nat → Nat)
    (sha : String → List Nat) (oR : Except String Unit) (cR : Except String String)
    (eR : String → Except String TokenResponse) (m : String) (code : String) :
    (jsTruthy st.accessToken = true →
        authenticate st rv sha oR cR eR = (⟨true, none⟩, st, false)) ∧
      (jsTruthy st.accessToken = false → oR = .error m →
        (authenticate st rv sha oR cR eR).1 = ⟨false, some m⟩) ∧
      (jsTruthy st.accessToken = false → oR = .ok () → cR = .error m →
        (authenticate st rv sha oR cR eR).1 = ⟨false, some m⟩) ∧
      (jsTruthy st.accessToken = false → oR = .ok () → cR = .ok code →
        eR code = .error m →
        (authenticate st rv sha oR cR eR).1 = ⟨false, some m⟩) := by
  refine ⟨?_, ?_, ?_, ?_⟩
  · intro h
    simp [authenticate, h]
  · intro h ho
    subst ho
    simp [authenticate, h]
  · intro h ho hc
    subst ho; subst hc
    simp [authenticate, h]
  · intro h ho hc he
    subst ho; subst hc
    simp [authenticate, h, he]

/-- C9 witness: the theorem at a concrete authenticated state (short-circuit)
and at the initial state with a failing browser launch (caught failure). -/
theorem authenticate_short_circuit_and_catch_witness :
    authenticate ⟨some "tok", none, none, ⟨none, none, none⟩, initialViewerState⟩
        (fun _ => 0) (fun _ => []) (.ok ()) (.ok "c") (fun _ => .error "x") =
      (⟨true, none⟩, ⟨some "tok", none, none, ⟨none, none, none⟩, initialViewerState⟩,
        false) ∧
      (authenticate initialServerState (fun _ => 0) (fun _ => [])
          (.error "browser failed") (.ok "c") (fun _ => .error "x")).1 =
        ⟨false, some "browser failed"⟩ :=
  ⟨(authenticate_short_circuit_and_catch
      ⟨some "tok", none, none, ⟨none, none, none⟩, initialViewerState⟩
      (fun _ => 0) (fun _ => []) (.ok ()) (.ok "c") (fun _ => .error "x")
      "browser failed" "c").1 (by decide),
   (authenticate_short_circuit_and_catch initialServerState
      (fun _ => 0) (fun _ => []) (.error "browser failed") (.ok "c")
      (fun _ => .error "x") "browser failed" "c").2.1 rfl rfl⟩

/-- C10: `render-model` overwrites the model context before attempting viewer
startup or the browser launch, so with a token present the new values remain
stored even when a later step fails and the tool returns an error payload:
the error return does not roll the context back, and a subsequent
`get-model-context` reports the failed render's model. -/
theorem render_error_keeps_context (st : ServerState) (args : RenderArgs)
    (tok e : String) (oR : Except String Unit)
    (htok : st.accessToken = some tok) (hne : tok ≠ "") :
    (renderModel st args (.error e) oR).1 = .errPayload e ∧
      (renderModel st args (.error e) oR).2.ctx =
        ⟨some args.elementGroupId, jsOrNull args.elementGroupName,
          some args.fileVersionUrn⟩ ∧
      (st.viewer.viewerServerRunning = false →
        (renderModel st args (.ok ()) (.error e)).1 = .errPayload e ∧
          (renderModel st args (.ok ()) (.error e)).2.ctx =
            ⟨some args.elementGroupId, jsOrNull args.elementGroupName,
              some args.fileVersionUrn⟩) ∧
      (args.elementGroupId ≠ "" →
        getModelContext (renderModel st args (.error e) oR).2.ctx =
          .ctxPayload args.elementGroupId (jsOrNull args.elementGroupName)
            (some args.fileVersionUrn)) := by
  obtain ⟨h1, _⟩ := renderModel_ctx_eq st args tok (.error e) oR htok hne
  refine ⟨?_, h1, ?_, ?_⟩
  · simp [renderModel, htok, hne]
  · intro hr
    obtain ⟨h2, _⟩ := renderModel_ctx_eq st args tok (.ok ()) (.error e) htok hne
    refine ⟨?_, h2⟩
    simp [renderModel, htok, hne, hr]
  · intro hid
    rw [h1]
    simp [getModelContext, jsTruthy, hid]

/-- C10 witness: the theorem at a concrete state whose viewer is stopped,
with a failing startup. -/
theorem render_error_keeps_context_witness :
    (renderModel ⟨some "tok", none, none, ⟨none, none, none⟩, initialViewerState⟩
        ⟨"urn1", "eg1", some "Tower"⟩ (.error "bind failed") (.ok ())).1 =
      .errPayload "bind failed" ∧
      (renderModel ⟨some "tok", none, none, ⟨none, none, none⟩, initialViewerState⟩
          ⟨"urn1", "eg1", some "Tower"⟩ (.error "bind failed") (.ok ())).2.ctx =
        ⟨some "eg1", jsOrNull (some "Tower"), some "urn1"⟩ ∧
      (initialViewerState.viewerServerRunning = false →
        (renderModel ⟨some "tok", none, none, ⟨none, none, none⟩, initialViewerState⟩
            ⟨"urn1", "eg1", some "Tower"⟩ (.ok ()) (.error "bind failed")).1 =
          .errPayload "bind failed" ∧
          (renderModel ⟨some "tok", none, none, ⟨none, none, none⟩, initialViewerState⟩
              ⟨"urn1", "eg1", some "Tower"⟩ (.ok ()) (.error "bind failed")).2.ctx =
            ⟨some "eg1", jsOrNull (some "Tower"), some "urn1"⟩) ∧
      ("eg1" ≠ "" →
        getModelContext
            (renderModel ⟨some "tok", none, none, ⟨none, none, none⟩, initialViewerState⟩
              ⟨"urn1", "eg1", some "Tower"⟩ (.error "bind failed") (.ok ())).2.ctx =
          .ctxPayload "eg1" (jsOrNull (some "Tower")) (some "urn1")) :=
  render_error_keeps_context
    ⟨some "tok", none, none, ⟨none, none, none⟩, initialViewerState⟩
    ⟨"urn1", "eg1", some "Tower"⟩ "tok" "bind failed" (.ok ()) rfl (by decide)

end AECDM
